import Mathlib

/-!
Shallow embedding of the `redirect` dispatch engine (engine.go of
github.com/reddec/redirect): the rule table, the reload protocol, robot
detection, query-parameter decoration and the per-request dispatch logic
of `engine.ServeHTTP`.

The Go `*template.Template` values produced by the standard library are
opaque to this repository, so the embedding is parametric in the template
type `Tmpl` together with a pure `parse` function (for
`template.New("").Parse`) and a pure `exec` function (for
`tpl.Execute`).  The rule map `map[string]*template.Template` is embedded
as an association list with map semantics (insert overwrites the key).
HTTP responses are embedded as a status, a header list (in the order the
handlers add them) and a body; side effects towards the stat collaborator
are recorded as an explicit event trace.
-/

namespace Redirect

/-- `charListPrefixOf needle hay` is true when `needle` is a prefix of `hay`
(character-by-character), mirroring how `strings.Contains` scans. -/
def charListPrefixOf : List Char → List Char → Bool
  | [], _ => true
  | _ :: _, [] => false
  | a :: as, b :: bs => a == b && charListPrefixOf as bs

/-- `charListContains hay needle` is true when `needle` occurs contiguously
inside `hay`. -/
def charListContains : List Char → List Char → Bool
  | hay, needle =>
    if charListPrefixOf needle hay then true
    else
      match hay with
      | [] => false
      | _ :: rest => charListContains rest needle

/-- Embedding of Go `strings.Contains hay needle`. -/
def strContains (hay needle : String) : Bool :=
  charListContains hay.toList needle.toList

/-- Embedding of Go `strings.ToLower` (character-wise lowering; the engine
only ever feeds it user-agent strings). -/
def toLowerGo (s : String) : String :=
  String.mk (s.toList.map Char.toLower)

/-- Embedding of Go `strings.TrimSpace`: strip whitespace from both ends. -/
def trimSpaceGo (s : String) : String :=
  String.mk (((s.toList.dropWhile Char.isWhitespace).reverse.dropWhile
    Char.isWhitespace).reverse)

/-- Embedding of Go `strings.Split(s, sep)` for the single-character
separator the engine uses: split at every occurrence; the empty string
yields `[""]`, exactly as in Go. -/
def splitGo (sep : Char) : List Char → List String
  | [] => [""]
  | c :: rest =>
    if c == sep then "" :: splitGo sep rest
    else
      match splitGo sep rest with
      | [] => [String.mk [c]]
      | h :: t => String.mk (c :: h.toList) :: t

/-- Embedding of Go `strings.Trim(s, "/")`: strip leading and trailing `/`. -/
def trimSlashes (s : String) : String :=
  String.mk (((s.toList.dropWhile (fun c => c == '/')).reverse.dropWhile
    (fun c => c == '/')).reverse)

/-- A rule as stored by the storage collaborator: the service key `URL` and
the raw template text `LocationTemplate` (field names from the Go struct
usage in `engine.Reload`). -/
structure Rule where
  URL : String
  LocationTemplate : String
deriving DecidableEq, Repr

/-- The request attributes the engine reads: `rq.URL.Path`, `rq.Method` and
`rq.UserAgent()`. -/
structure Request where
  path : String
  method : String
  userAgent : String
deriving DecidableEq, Repr

/-- An HTTP response as observed by the client: status code, headers in the
order they were added, and body. -/
structure Response where
  status : Nat
  headers : List (String × String)
  body : String
deriving DecidableEq, Repr

/-- First value of a header, as a client reading the response would see it. -/
def headerVal (resp : Response) (name : String) : Option String :=
  match resp.headers.find? (fun p => p.1 == name) with
  | none => none
  | some p => some p.2

/-- The engine state from the Go `engine` struct: the rule table and the
three configuration fields.  The storage and stat collaborators are external
and appear as explicit inputs/outputs of the operations instead. -/
structure Engine (Tmpl : Type) where
  rules : List (String × Tmpl)
  defaultUrl : String
  urlParameter : String
  robots : List String
deriving DecidableEq, Repr

/-- Go map read `m[k]` with the comma-ok idiom. -/
def mapLookup {Tmpl : Type} (m : List (String × Tmpl)) (k : String) : Option Tmpl :=
  match m.find? (fun p => p.1 == k) with
  | none => none
  | some p => some p.2

/-- Go map write `m[k] = v`: the new binding shadows (replaces) any old one. -/
def mapInsert {Tmpl : Type} (m : List (String × Tmpl)) (k : String) (v : Tmpl) :
    List (String × Tmpl) :=
  (k, v) :: m.filter (fun p => p.1 != k)

/-- Embedding of `DefaultEngine` (the nil-collaborator panics are guards on
the external collaborators, which the embedding keeps outside the state):
the rule table starts empty and the robots configuration string is split
on `|`, exactly as `strings.Split(robots, "|")` does. -/
def DefaultEngine (Tmpl : Type) (defaultUrl urlParameter robots : String) : Engine Tmpl :=
  { rules := []
    defaultUrl := defaultUrl
    urlParameter := urlParameter
    robots := splitGo '|' robots.toList }

/-- The loop body of `engine.IsRegularUser`: return `false` on the first
non-empty configured substring contained in the (already lower-cased)
user-agent, `true` when the list is exhausted. -/
def isRegularLoop (userAgent : String) : List String → Bool
  | [] => true
  | robot :: rest =>
    if robot != "" && strContains userAgent robot then false
    else isRegularLoop userAgent rest

/-- Embedding of `engine.IsRegularUser`: lower-case the user-agent, then scan
the configured robot substrings. -/
def IsRegularUser {Tmpl : Type} (eng : Engine Tmpl) (rq : Request) : Bool :=
  isRegularLoop (toLowerGo rq.userAgent) eng.robots

/-- Embedding of `engine.ProcessRegularUserUrl`: append the configured query
parameter (when non-empty) with `&` if the URL already has a `?`, else `?`. -/
def ProcessRegularUserUrl {Tmpl : Type} (eng : Engine Tmpl) (url : String) : String :=
  if eng.urlParameter = "" then url
  else if strContains url "?" then url ++ "&" ++ eng.urlParameter
  else url ++ "?" ++ eng.urlParameter

/-- The URL `engine.Redirect` actually sends: decorated when the client is a
regular user, untouched otherwise. -/
def finalUrlOf {Tmpl : Type} (eng : Engine Tmpl) (url : String) (rq : Request) : String :=
  if IsRegularUser eng rq then ProcessRegularUserUrl eng url else url

/-- Embedding of `engine.Redirect`: add `Content-Length: 0`, then
`http.Redirect` with status 301 sets the `Location` header to the final URL.
(The zero `Content-Length` means no body reaches the client.) -/
def Redirect {Tmpl : Type} (eng : Engine Tmpl) (url : String) (rq : Request) : Response :=
  { status := 301
    headers := [("Content-Length", "0"), ("Location", finalUrlOf eng url rq)]
    body := "" }

/-- Embedding of `http.NotFound`. -/
def notFoundResp : Response :=
  { status := 404
    headers := [("Content-Type", "text/plain; charset=utf-8"),
                ("X-Content-Type-Options", "nosniff")]
    body := "404 page not found\n" }

/-- Embedding of `http.Error(wr, msg, http.StatusInternalServerError)`:
plain-text 500 whose body is the message followed by a newline. -/
def errorResp (msg : String) : Response :=
  { status := 500
    headers := [("Content-Type", "text/plain; charset=utf-8"),
                ("X-Content-Type-Options", "nosniff")]
    body := msg ++ "\n" }

/-- Observable side effects of one request towards the collaborators:
a `Touch` on the stat collaborator, and an attempt to render a template
(used to express that the touch happens before rendering). -/
inductive Evt where
  | touch (service : String)
  | renderAttempt (service : String)
deriving DecidableEq, Repr

/-- Result of serving one request: the response, the ordered trace of
collaborator events, and the engine state afterwards (`ServeHTTP` only ever
reads the table, so it hands the state back unchanged). -/
structure ServeResult (Tmpl : Type) where
  response : Response
  events : List Evt
  engine : Engine Tmpl
deriving Repr

/-- Embedding of `engine.ServeHTTP`, parametric in the template execution
function `exec` (Go `tpl.Execute` writing into a buffer). -/
def ServeHTTP {Tmpl : Type} (exec : Tmpl → Request → Except String String)
    (eng : Engine Tmpl) (rq : Request) : ServeResult Tmpl :=
  let service := trimSlashes rq.path
  match mapLookup eng.rules service with
  | none =>
    if eng.defaultUrl != "" then
      { response := Redirect eng eng.defaultUrl rq, events := [], engine := eng }
    else
      { response := notFoundResp, events := [], engine := eng }
  | some tpl =>
    match exec tpl rq with
    | .error e =>
      { response := errorResp e
        events := [.touch service, .renderAttempt service]
        engine := eng }
    | .ok rendered =>
      let url := trimSpaceGo rendered
      if rq.method == "HEAD" then
        { response := { status := 200, headers := [("Location", url)], body := "" }
          events := [.touch service, .renderAttempt service]
          engine := eng }
      else
        { response := Redirect eng url rq
          events := [.touch service, .renderAttempt service]
          engine := eng }

/-- The compile loop of `engine.Reload`: parse each rule's template, abort
with a descriptive error on the first failure, otherwise accumulate the
fresh map `swap`. -/
def compileRules {Tmpl : Type} (parse : String → Except String Tmpl)
    (acc : List (String × Tmpl)) : List Rule → Except String (List (String × Tmpl))
  | [] => .ok acc
  | rule :: rest =>
    match parse rule.LocationTemplate with
    | .error e => .error ("engine: parse rule for url " ++ rule.URL ++ ": " ++ e)
    | .ok t => compileRules parse (mapInsert acc rule.URL t) rest

/-- Embedding of `engine.Reload`: take the storage collaborator's answer
(`eng.storage.All()`) as an explicit input; on success compile everything
into a fresh table and only then install it; on any failure return the error
with the engine state untouched. -/
def Reload {Tmpl : Type} (parse : String → Except String Tmpl) (eng : Engine Tmpl)
    (fetched : Except String (List Rule)) : Except String Unit × Engine Tmpl :=
  match fetched with
  | .error e => (.error ("engine: read rules from storage: " ++ e), eng)
  | .ok rules =>
    match compileRules parse [] rules with
    | .error e => (.error e, eng)
    | .ok swap => (.ok (), { eng with rules := swap })

/-! ### Concrete fixtures

The engine is parametric in the external template collaborator; the
following concrete instantiation is used to evaluate the theorems at
concrete inputs.  A fixture template either renders a fixed string or fails
with a fixed message; the fixture parser rejects an unclosed `{{` action,
the simplest failure mode of the real template parser. -/

/-- A concrete template value: renders `s`, or fails with message `msg`. -/
inductive FixtureTmpl where
  | out (s : String)
  | fails (msg : String)
deriving DecidableEq, Repr

/-- Concrete parse function standing in for `template.New("").Parse`. -/
def fixtureParse (s : String) : Except String FixtureTmpl :=
  if strContains s "\x7b\x7b" && !strContains s "\x7d\x7d" then .error "unclosed action"
  else .ok (.out s)

/-- Concrete execution function standing in for `tpl.Execute`. -/
def fixtureExec : FixtureTmpl → Request → Except String String
  | .out s, _ => .ok s
  | .fails m, _ => .error m

/-- A concrete engine holding one compiled rule, used by the witnesses. -/
def fixEng : Engine FixtureTmpl :=
  { rules := [("keep", .out "http://old.example")]
    defaultUrl := ""
    urlParameter := ""
    robots := [""] }

/-- The rule set with one bad template among valid ones, used by the C1
witness. -/
def c1BadRules : List Rule :=
  [Rule.mk "a" "http://a.example", Rule.mk "b" "\x7b\x7bbad", Rule.mk "c" "http://c.example"]

/-! ### Theorems -/

/-- If some rule's template fails to parse, the compile loop aborts with an
error, whatever has been accumulated so far. -/
theorem compileRules_isError {Tmpl : Type} (parse : String → Except String Tmpl)
    (rules : List Rule) (acc : List (String × Tmpl))
    (h : ∃ r ∈ rules, ∃ e, parse r.LocationTemplate = .error e) :
    ∃ e, compileRules parse acc rules = .error e := by
  induction rules generalizing acc with
  | nil =>
    obtain ⟨r, hr, _⟩ := h
    exact absurd hr (List.not_mem_nil r)
  | cons rule rest ih =>
    cases hp : parse rule.LocationTemplate with
    | error e =>
      exact ⟨"engine: parse rule for url " ++ rule.URL ++ ": " ++ e,
        by simp [compileRules, hp]⟩
    | ok t =>
      obtain ⟨r, hr, e, he⟩ := h
      rcases List.mem_cons.mp hr with rfl | hr'
      · rw [hp] at he
        cases he
      · have := ih (mapInsert acc rule.URL t) ⟨r, hr', e, he⟩
        simpa [compileRules, hp] using this

/-- If every rule's template parses, the compile loop succeeds. -/
theorem compileRules_isOk {Tmpl : Type} (parse : String → Except String Tmpl)
    (rules : List Rule) (acc : List (String × Tmpl))
    (h : ∀ r ∈ rules, ∃ t, parse r.LocationTemplate = .ok t) :
    ∃ swap, compileRules parse acc rules = .ok swap := by
  induction rules generalizing acc with
  | nil => exact ⟨acc, rfl⟩
  | cons rule rest ih =>
    obtain ⟨t, ht⟩ := h rule (List.mem_cons_self rule rest)
    have := ih (mapInsert acc rule.URL t) (fun r hr => h r (List.mem_cons_of_mem _ hr))
    simpa [compileRules, ht] using this

/-- C1.  Reload atomicity: if any rule of the fetched set fails to compile,
`Reload` returns an error and the active rule table is exactly the one from
before the call, so every lookup is unchanged and no key of the failed set
becomes visible; only when every rule compiles is the table replaced, in one
step, by the fully built new table. -/
theorem reload_atomic {Tmpl : Type} (parse : String → Except String Tmpl)
    (eng : Engine Tmpl) (rules : List Rule) :
    ((∃ r ∈ rules, ∃ e, parse r.LocationTemplate = .error e) →
      ∃ e, Reload parse eng (.ok rules) = (.error e, eng) ∧
        ∀ k, mapLookup (Reload parse eng (.ok rules)).2.rules k = mapLookup eng.rules k) ∧
    ((∀ r ∈ rules, ∃ t, parse r.LocationTemplate = .ok t) →
      ∃ swap, compileRules parse [] rules = .ok swap ∧
        Reload parse eng (.ok rules) = (.ok (), { eng with rules := swap })) := by
  constructor
  · intro h
    obtain ⟨e, he⟩ := compileRules_isError parse rules [] h
    exact ⟨e, by simp [Reload, he], by simp [Reload, he]⟩
  · intro h
    obtain ⟨swap, hs⟩ := compileRules_isOk parse rules [] h
    exact ⟨swap, hs, by simp [Reload, hs]⟩

/-- C1 witness: with one unparsable template among three rules, `Reload`
fails and the prior table is untouched. -/
theorem reload_atomic_witness :
    (∃ r ∈ c1BadRules, ∃ e, fixtureParse r.LocationTemplate = .error e) ∧
    (∃ e, Reload fixtureParse fixEng (.ok c1BadRules) = (.error e, fixEng) ∧
      ∀ k, mapLookup (Reload fixtureParse fixEng (.ok c1BadRules)).2.rules k =
        mapLookup fixEng.rules k) :=
  have h : ∃ r ∈ c1BadRules, ∃ e, fixtureParse r.LocationTemplate = .error e :=
    ⟨Rule.mk "b" "\x7b\x7bbad", by decide, "unclosed action", rfl⟩
  ⟨h, (reload_atomic fixtureParse fixEng c1BadRules).1 h⟩

/-- Engine used by the C2 scenario: one rule rendering `http://t.com`, a
configured query parameter and no robot signatures. -/
def c2Eng : Engine FixtureTmpl :=
  { rules := [("svc", .out "http://t.com")]
    defaultUrl := ""
    urlParameter := "ref=x"
    robots := [""] }

/-- A HEAD request for the C2 scenario. -/
def c2HeadRq : Request := { path := "/svc", method := "HEAD", userAgent := "Mozilla/5.0" }

/-- The same request with method GET. -/
def c2GetRq : Request := { path := "/svc", method := "GET", userAgent := "Mozilla/5.0" }

/-- C2 counterexample: with query parameter `ref=x` configured and a regular
client, a HEAD request gets `Location: http://t.com` (the raw rendered URL,
no policy decoration) while the GET request for the same rule is redirected
to `http://t.com?ref=x` — the two Location values differ, refuting the claim
that HEAD carries the policy-decorated final URL. -/
theorem head_location_undecorated_cex :
    (ServeHTTP fixtureExec c2Eng c2HeadRq).response.status = 200 ∧
    headerVal (ServeHTTP fixtureExec c2Eng c2HeadRq).response "Location" =
      some "http://t.com" ∧
    headerVal (ServeHTTP fixtureExec c2Eng c2GetRq).response "Location" =
      some "http://t.com?ref=x" ∧
    headerVal (ServeHTTP fixtureExec c2Eng c2HeadRq).response "Location" ≠
      headerVal (ServeHTTP fixtureExec c2Eng c2GetRq).response "Location" := by
  decide

/-- C2 amended: for a matched rule whose rendering succeeds, a non-HEAD
request gets the `Redirect` response (which applies the robot check and
query-parameter decoration), but a HEAD request gets status 200 with the
`Location` header set to the trimmed rendered URL itself, without the
redirect policy being applied. -/
theorem head_raw_location {Tmpl : Type} (exec : Tmpl → Request → Except String String)
    (eng : Engine Tmpl) (rq : Request) (tpl : Tmpl) (rendered : String)
    (hlook : mapLookup eng.rules (trimSlashes rq.path) = some tpl)
    (hexec : exec tpl rq = .ok rendered) :
    (rq.method = "HEAD" →
      (ServeHTTP exec eng rq).response =
        { status := 200, headers := [("Location", trimSpaceGo rendered)], body := "" }) ∧
    (rq.method ≠ "HEAD" →
      (ServeHTTP exec eng rq).response = Redirect eng (trimSpaceGo rendered) rq) := by
  constructor <;> intro hm <;> simp [ServeHTTP, hlook, hexec, hm]

/-- C2 witness: the amended theorem evaluated on the concrete HEAD scenario. -/
theorem head_raw_location_witness :
    mapLookup c2Eng.rules (trimSlashes c2HeadRq.path) = some (FixtureTmpl.out "http://t.com") ∧
    fixtureExec (FixtureTmpl.out "http://t.com") c2HeadRq = .ok "http://t.com" ∧
    (c2HeadRq.method = "HEAD" →
      (ServeHTTP fixtureExec c2Eng c2HeadRq).response =
        { status := 200, headers := [("Location", trimSpaceGo "http://t.com")], body := "" }) ∧
    (c2HeadRq.method ≠ "HEAD" →
      (ServeHTTP fixtureExec c2Eng c2HeadRq).response =
        Redirect c2Eng (trimSpaceGo "http://t.com") c2HeadRq) :=
  ⟨rfl, rfl,
    head_raw_location fixtureExec c2Eng c2HeadRq (FixtureTmpl.out "http://t.com")
      "http://t.com" rfl rfl⟩

/-- Engine used by the C3 scenario: default URL configured and one rule that
renders exactly the default URL. -/
def c3Eng : Engine FixtureTmpl :=
  { rules := [("svc", .out "http://home.example")]
    defaultUrl := "http://home.example"
    urlParameter := ""
    robots := [""] }

/-- A HEAD request for an unmatched path. -/
def c3MissHeadRq : Request :=
  { path := "/unknown/path", method := "HEAD", userAgent := "Mozilla/5.0" }

/-- A HEAD request for the matched rule. -/
def c3HitHeadRq : Request := { path := "/svc", method := "HEAD", userAgent := "Mozilla/5.0" }

/-- C3 counterexample: a HEAD request on a miss with the default URL
configured gets the 301 redirect response, while a HEAD request matching a
rule that renders the very same URL gets the 200-with-Location shape — the
defaulted request does not behave identically to the matched one for HEAD. -/
theorem default_head_shape_cex :
    (ServeHTTP fixtureExec c3Eng c3MissHeadRq).response.status = 301 ∧
    (ServeHTTP fixtureExec c3Eng c3HitHeadRq).response.status = 200 ∧
    (ServeHTTP fixtureExec c3Eng c3MissHeadRq).response ≠
      (ServeHTTP fixtureExec c3Eng c3HitHeadRq).response := by
  decide

/-- C3 amended: on a rule-table miss with a default URL configured the
engine sends the `Redirect` response for the default URL regardless of the
method (so for non-HEAD methods the behaviour is identical to a matched
rule whose rendered target is the default URL, while a HEAD request gets
the 301 redirect rather than the hit path's 200-with-Location shape), and
the stat collaborator's Touch is never invoked on a miss; with no default
URL configured the response is 404, again with no Touch. -/
theorem default_url_behavior {Tmpl : Type} (exec : Tmpl → Request → Except String String)
    (eng : Engine Tmpl) (rq : Request)
    (hmiss : mapLookup eng.rules (trimSlashes rq.path) = none) :
    ((eng.defaultUrl ≠ "" →
      (ServeHTTP exec eng rq).response = Redirect eng eng.defaultUrl rq ∧
        (ServeHTTP exec eng rq).events = []) ∧
     (eng.defaultUrl = "" →
      (ServeHTTP exec eng rq).response = notFoundResp ∧
        (ServeHTTP exec eng rq).events = [])) ∧
    (∀ (tpl : Tmpl) (u : String), exec tpl rq = .ok u → trimSpaceGo u = eng.defaultUrl →
      eng.defaultUrl ≠ "" → rq.method ≠ "HEAD" →
      (ServeHTTP exec
          { eng with rules := mapInsert eng.rules (trimSlashes rq.path) tpl } rq).response =
        (ServeHTTP exec eng rq).response) := by
  refine ⟨⟨fun hd => ?_, fun hd => ?_⟩, fun tpl u hexec htrim hd hm => ?_⟩
  · constructor <;> simp [ServeHTTP, hmiss, hd]
  · constructor <;> simp [ServeHTTP, hmiss, hd]
  · have hl : mapLookup (mapInsert eng.rules (trimSlashes rq.path) tpl)
        (trimSlashes rq.path) = some tpl := by
      simp [mapLookup, mapInsert]
    simp [ServeHTTP, hmiss, hl, hexec, htrim, hd, hm, Redirect, finalUrlOf,
      IsRegularUser, ProcessRegularUserUrl]

/-- C3 witness: the amended theorem evaluated on the concrete miss scenario. -/
theorem default_url_behavior_witness :
    mapLookup c3Eng.rules (trimSlashes c3MissHeadRq.path) = none ∧
    (((c3Eng.defaultUrl ≠ "" →
      (ServeHTTP fixtureExec c3Eng c3MissHeadRq).response =
          Redirect c3Eng c3Eng.defaultUrl c3MissHeadRq ∧
        (ServeHTTP fixtureExec c3Eng c3MissHeadRq).events = []) ∧
     (c3Eng.defaultUrl = "" →
      (ServeHTTP fixtureExec c3Eng c3MissHeadRq).response = notFoundResp ∧
        (ServeHTTP fixtureExec c3Eng c3MissHeadRq).events = [])) ∧
    (∀ (tpl : FixtureTmpl) (u : String), fixtureExec tpl c3MissHeadRq = .ok u →
      trimSpaceGo u = c3Eng.defaultUrl →
      c3Eng.defaultUrl ≠ "" → c3MissHeadRq.method ≠ "HEAD" →
      (ServeHTTP fixtureExec
          { c3Eng with
            rules := mapInsert c3Eng.rules (trimSlashes c3MissHeadRq.path) tpl }
          c3MissHeadRq).response =
        (ServeHTTP fixtureExec c3Eng c3MissHeadRq).response)) :=
  ⟨rfl, default_url_behavior fixtureExec c3Eng c3MissHeadRq rfl⟩

/-- Engine used by the C4 scenario: a robot substring configured with an
upper-case letter. -/
def c4Eng : Engine FixtureTmpl :=
  { rules := [], defaultUrl := "", urlParameter := "", robots := ["Bot"] }

/-- A request whose user-agent contains the configured substring up to
letter case. -/
def c4Rq : Request := { path := "/x", method := "GET", userAgent := "SuperBot" }

/-- C4 counterexample: with robot list `["Bot"]`, the user-agent `SuperBot`
contains `Bot` case-insensitively (both lowered, `superbot` contains `bot`),
yet `IsRegularUser` returns `true`: only the user-agent is lower-cased, the
configured substring is compared verbatim, so an upper-case robot substring
never matches. -/
theorem robot_uppercase_cex :
    strContains (toLowerGo c4Rq.userAgent) (toLowerGo "Bot") = true ∧
    IsRegularUser c4Eng c4Rq = true := by
  decide

/-- C4 amended: `IsRegularUser` returns `false` exactly when the
*lower-cased* user-agent contains some configured non-empty robot substring
taken verbatim (empty substrings are ignored); the match is
case-insensitive only on the user-agent side, so a configured substring
containing an upper-case letter can fail to match even when a fully
case-insensitive comparison would succeed. -/
theorem isRegular_iff {Tmpl : Type} (eng : Engine Tmpl) (rq : Request) :
    IsRegularUser eng rq = false ↔
      ∃ robot ∈ eng.robots, robot ≠ "" ∧ strContains (toLowerGo rq.userAgent) robot = true := by
  unfold IsRegularUser
  induction eng.robots with
  | nil => simp [isRegularLoop]
  | cons robot rest ih =>
    simp only [isRegularLoop]
    split
    · next hcond =>
      simp only [Bool.and_eq_true, bne_iff_ne, ne_eq] at hcond
      constructor
      · intro _
        exact ⟨robot, List.mem_cons_self robot rest, hcond.1, hcond.2⟩
      · intro _
        rfl
    · next hcond =>
      rw [ih]
      constructor
      · rintro ⟨r, hr, hne, hc⟩
        exact ⟨r, List.mem_cons_of_mem _ hr, hne, hc⟩
      · rintro ⟨r, hr, hne, hc⟩
        rcases List.mem_cons.mp hr with rfl | hr'
        · exact absurd (by simp [bne_iff_ne, hne, hc]) hcond
        · exact ⟨r, hr', hne, hc⟩

/-- C4 witness: the amended characterisation evaluated concretely — a
lower-case configured substring matches a mixed-case user-agent. -/
theorem isRegular_iff_witness :
    IsRegularUser (Engine.mk ([] : List (String × FixtureTmpl)) "" "" ["bot"])
      (Request.mk "/x" "GET" "Some-Crawler-Bot/1.0") = false :=
  (isRegular_iff (Engine.mk ([] : List (String × FixtureTmpl)) "" "" ["bot"])
      (Request.mk "/x" "GET" "Some-Crawler-Bot/1.0")).mpr
    ⟨"bot", by decide, by decide, by decide⟩

/-- Engine used by the C5 witness, matching the spec's worked example:
robot list `bot|crawler`, query parameter `ref=x`. -/
def c5Eng : Engine FixtureTmpl :=
  { rules := [], defaultUrl := "", urlParameter := "ref=x", robots := ["bot", "crawler"] }

/-- A robot request of the C5 scenario. -/
def c5BotRq : Request := { path := "/svc", method := "GET", userAgent := "Some-Crawler/1.0" }

/-- A regular-client request of the C5 scenario. -/
def c5MozRq : Request := { path := "/svc", method := "GET", userAgent := "Mozilla/5.0" }

/-- C5.  URL decoration: an identified robot gets the URL unchanged; a
regular client with a non-empty configured parameter gets it appended with
`&` when the URL already contains `?` and with `?` otherwise; with an empty
configured parameter the URL is unchanged for every client. -/
theorem decorate_cases {Tmpl : Type} (eng : Engine Tmpl) (url : String) (rq : Request) :
    (IsRegularUser eng rq = false → finalUrlOf eng url rq = url) ∧
    (IsRegularUser eng rq = true → eng.urlParameter ≠ "" → strContains url "?" = true →
      finalUrlOf eng url rq = url ++ "&" ++ eng.urlParameter) ∧
    (IsRegularUser eng rq = true → eng.urlParameter ≠ "" → strContains url "?" = false →
      finalUrlOf eng url rq = url ++ "?" ++ eng.urlParameter) ∧
    (eng.urlParameter = "" → finalUrlOf eng url rq = url) := by
  refine ⟨fun hr => ?_, fun hr hp hq => ?_, fun hr hp hq => ?_, fun hp => ?_⟩
  · simp [finalUrlOf, hr]
  · simp [finalUrlOf, ProcessRegularUserUrl, hr, hp, hq]
  · simp [finalUrlOf, ProcessRegularUserUrl, hr, hp, hq]
  · cases hr : IsRegularUser eng rq <;>
      simp [finalUrlOf, ProcessRegularUserUrl, hr, hp]

/-- C5 witness: the spec's worked example — crawler unchanged, regular
client decorated with `?` on a bare URL and with `&` on a URL that already
carries a query. -/
theorem decorate_cases_witness :
    (IsRegularUser c5Eng c5BotRq = false ∧
      finalUrlOf c5Eng "http://t.com" c5BotRq = "http://t.com") ∧
    (IsRegularUser c5Eng c5MozRq = true ∧ c5Eng.urlParameter ≠ "" ∧
      strContains "http://t.com" "?" = false ∧
      finalUrlOf c5Eng "http://t.com" c5MozRq = "http://t.com?ref=x") ∧
    (strContains "http://t.com?id=1" "?" = true ∧
      finalUrlOf c5Eng "http://t.com?id=1" c5MozRq = "http://t.com?id=1&ref=x") :=
  ⟨⟨by decide, (decorate_cases c5Eng "http://t.com" c5BotRq).1 (by decide)⟩,
   ⟨by decide, by decide, by decide,
    (decorate_cases c5Eng "http://t.com" c5MozRq).2.2.1 (by decide) (by decide) (by decide)⟩,
   ⟨by decide,
    (decorate_cases c5Eng "http://t.com?id=1" c5MozRq).2.1 (by decide) (by decide) (by decide)⟩⟩

/-- C6.  Every matched or defaulted request whose method is not HEAD gets
the `Redirect` response: status 301, a `Content-Length` header of `0`, and
a `Location` header carrying the final (policy-decorated) URL. -/
theorem non_head_redirect {Tmpl : Type} (exec : Tmpl → Request → Except String String)
    (eng : Engine Tmpl) (rq : Request) (hm : rq.method ≠ "HEAD") :
    (∀ (tpl : Tmpl) (rendered : String),
      mapLookup eng.rules (trimSlashes rq.path) = some tpl →
      exec tpl rq = .ok rendered →
      (ServeHTTP exec eng rq).response = Redirect eng (trimSpaceGo rendered) rq) ∧
    (mapLookup eng.rules (trimSlashes rq.path) = none → eng.defaultUrl ≠ "" →
      (ServeHTTP exec eng rq).response = Redirect eng eng.defaultUrl rq) ∧
    (∀ url : String, (Redirect eng url rq).status = 301 ∧
      headerVal (Redirect eng url rq) "Content-Length" = some "0" ∧
      headerVal (Redirect eng url rq) "Location" = some (finalUrlOf eng url rq)) := by
  refine ⟨fun tpl rendered hlook hexec => ?_, fun hmiss hd => ?_, fun url => ?_⟩
  · simp [ServeHTTP, hlook, hexec, hm]
  · simp [ServeHTTP, hmiss, hd]
  · exact ⟨rfl, rfl, rfl⟩

/-- C6 witness: the amended-free claim evaluated on the concrete GET
scenario of the C2 engine (matched rule) and on a defaulted miss. -/
theorem non_head_redirect_witness :
    c2GetRq.method ≠ "HEAD" ∧
    (ServeHTTP fixtureExec c2Eng c2GetRq).response =
      Redirect c2Eng (trimSpaceGo "http://t.com") c2GetRq ∧
    (Redirect c2Eng "http://t.com" c2GetRq).status = 301 ∧
    headerVal (Redirect c2Eng "http://t.com" c2GetRq) "Content-Length" = some "0" ∧
    headerVal (Redirect c2Eng "http://t.com" c2GetRq) "Location" =
      some (finalUrlOf c2Eng "http://t.com" c2GetRq) :=
  have hm : c2GetRq.method ≠ "HEAD" := by decide
  ⟨hm,
   (non_head_redirect fixtureExec c2Eng c2GetRq hm).1 (FixtureTmpl.out "http://t.com")
     "http://t.com" rfl rfl,
   (non_head_redirect fixtureExec c2Eng c2GetRq hm).2.2 "http://t.com"⟩

/-- Engine used by the C7 scenario: the matched rule fails at render time
with message `boom`; a second rule exists to observe table stability. -/
def c7Eng : Engine FixtureTmpl :=
  { rules := [("svc", .fails "boom"), ("other", .out "http://o.example")]
    defaultUrl := ""
    urlParameter := ""
    robots := [""] }

/-- The request that hits the failing rule. -/
def c7Rq : Request := { path := "/svc", method := "GET", userAgent := "Mozilla/5.0" }

/-- C7 counterexample: when the matched rule for service key `svc` fails to
render with error `boom`, the response body is exactly the error text plus
a newline and does not mention the failing service key (the key is only
written to the server log). -/
theorem render_error_body_cex :
    (ServeHTTP fixtureExec c7Eng c7Rq).response.status = 500 ∧
    (ServeHTTP fixtureExec c7Eng c7Rq).response.body = "boom\n" ∧
    strContains (ServeHTTP fixtureExec c7Eng c7Rq).response.body "svc" = false := by
  decide

/-- C7 amended: a request whose matched rule fails to render gets status 500
with a body consisting of the render error text (the failing service key is
written to the server log, not to the response body), and the engine state
— hence the rule table and every lookup — is left unchanged. -/
theorem render_error_response {Tmpl : Type} (exec : Tmpl → Request → Except String String)
    (eng : Engine Tmpl) (rq : Request) (tpl : Tmpl) (e : String)
    (hlook : mapLookup eng.rules (trimSlashes rq.path) = some tpl)
    (hexec : exec tpl rq = .error e) :
    (ServeHTTP exec eng rq).response = errorResp e ∧
    (ServeHTTP exec eng rq).response.status = 500 ∧
    (ServeHTTP exec eng rq).response.body = e ++ "\n" ∧
    (ServeHTTP exec eng rq).engine = eng ∧
    ∀ k, mapLookup (ServeHTTP exec eng rq).engine.rules k = mapLookup eng.rules k := by
  refine ⟨?_, ?_, ?_, ?_, fun k => ?_⟩ <;> simp [ServeHTTP, hlook, hexec, errorResp]

/-- C7 witness: the amended theorem evaluated on the concrete failing-render
scenario. -/
theorem render_error_response_witness :
    mapLookup c7Eng.rules (trimSlashes c7Rq.path) = some (FixtureTmpl.fails "boom") ∧
    fixtureExec (FixtureTmpl.fails "boom") c7Rq = .error "boom" ∧
    ((ServeHTTP fixtureExec c7Eng c7Rq).response = errorResp "boom" ∧
     (ServeHTTP fixtureExec c7Eng c7Rq).response.status = 500 ∧
     (ServeHTTP fixtureExec c7Eng c7Rq).response.body = "boom" ++ "\n" ∧
     (ServeHTTP fixtureExec c7Eng c7Rq).engine = c7Eng ∧
     ∀ k, mapLookup (ServeHTTP fixtureExec c7Eng c7Rq).engine.rules k =
       mapLookup c7Eng.rules k) :=
  ⟨rfl, rfl,
   render_error_response fixtureExec c7Eng c7Rq (FixtureTmpl.fails "boom") "boom" rfl rfl⟩

/-- C8.  Rendering is deterministic: the embedded compile and execute
pipeline is a pure function of the template and the request context, so for
a valid template and two identical request contexts the rendered string —
and the whole served response — coincide; no hidden state can influence the
result. -/
theorem render_deterministic {Tmpl : Type} (parse : String → Except String Tmpl)
    (exec : Tmpl → Request → Except String String) (eng : Engine Tmpl)
    (T : String) (tpl : Tmpl) (c1 c2 : Request)
    (hvalid : parse T = .ok tpl) (hc : c1 = c2) :
    exec tpl c1 = exec tpl c2 ∧ ServeHTTP exec eng c1 = ServeHTTP exec eng c2 := by
  subst hc
  exact ⟨rfl, rfl⟩

/-- C8 witness: determinism evaluated at a concrete valid template and a
concrete repeated context. -/
theorem render_deterministic_witness :
    fixtureParse "http://t.com" = .ok (FixtureTmpl.out "http://t.com") ∧
    c2GetRq = c2GetRq ∧
    fixtureExec (FixtureTmpl.out "http://t.com") c2GetRq =
      fixtureExec (FixtureTmpl.out "http://t.com") c2GetRq ∧
    ServeHTTP fixtureExec c2Eng c2GetRq = ServeHTTP fixtureExec c2Eng c2GetRq :=
  ⟨rfl, rfl,
   render_deterministic fixtureParse fixtureExec c2Eng "http://t.com"
     (FixtureTmpl.out "http://t.com") c2GetRq c2GetRq rfl rfl⟩

/-- C9.  Stat notification: on a rule-table hit the event trace is exactly
`Touch` on the service key followed by the render attempt — so the touch
precedes rendering and happens exactly once even when rendering later fails
with a 500 — while a miss (default-URL fallback or 404) produces no events
at all. -/
theorem touch_trace {Tmpl : Type} (exec : Tmpl → Request → Except String String)
    (eng : Engine Tmpl) (rq : Request) :
    (∀ tpl : Tmpl, mapLookup eng.rules (trimSlashes rq.path) = some tpl →
      (ServeHTTP exec eng rq).events =
        [Evt.touch (trimSlashes rq.path), Evt.renderAttempt (trimSlashes rq.path)]) ∧
    (mapLookup eng.rules (trimSlashes rq.path) = none →
      (ServeHTTP exec eng rq).events = []) := by
  constructor
  · intro tpl hlook
    cases hexec : exec tpl rq with
    | error e => simp [ServeHTTP, hlook, hexec]
    | ok rendered =>
      simp only [ServeHTTP, hlook, hexec]
      split <;> rfl
  · intro hmiss
    simp only [ServeHTTP, hmiss]
    split <;> rfl

/-- C9 witness: on the failing-render hit the trace is touch-then-render,
and on a miss the trace is empty. -/
theorem touch_trace_witness :
    mapLookup c7Eng.rules (trimSlashes c7Rq.path) = some (FixtureTmpl.fails "boom") ∧
    (ServeHTTP fixtureExec c7Eng c7Rq).events =
      [Evt.touch (trimSlashes c7Rq.path), Evt.renderAttempt (trimSlashes c7Rq.path)] ∧
    mapLookup c3Eng.rules (trimSlashes c3MissHeadRq.path) = none ∧
    (ServeHTTP fixtureExec c3Eng c3MissHeadRq).events = [] :=
  ⟨rfl,
   (touch_trace fixtureExec c7Eng c7Rq).1 (FixtureTmpl.fails "boom") rfl,
   rfl,
   (touch_trace fixtureExec c3Eng c3MissHeadRq).2 rfl⟩

/-- C10.  `DefaultEngine` splits the robots configuration on `|`, so an
empty robots string yields the singleton list `[""]`; the robot check
ignores the empty substring, so every request is treated as a regular
client and the final URL is always the query-parameter-decorated one. -/
theorem empty_robots_all_regular (Tmpl : Type) (dU uP : String) (rq : Request)
    (url : String) :
    (DefaultEngine Tmpl dU uP "").robots = [""] ∧
    IsRegularUser (DefaultEngine Tmpl dU uP "") rq = true ∧
    finalUrlOf (DefaultEngine Tmpl dU uP "") url rq =
      ProcessRegularUserUrl (DefaultEngine Tmpl dU uP "") url := by
  have hreg : IsRegularUser (DefaultEngine Tmpl dU uP "") rq = true := rfl
  exact ⟨rfl, hreg, by simp [finalUrlOf, hreg]⟩

end Redirect
